import Mathlib

/-!
Verification of the extraction / reconciliation / flow-graph pipeline of the
10-K storytelling repository (src/extract_financials.py, src/visualize_sankey.py).

Modelling conventions:
* Python floats are modelled as exact rationals (ℚ); floating-point rounding is
  out of scope for the arithmetic invariants considered here.
* A decoded JSON item {"bucket": ..., "value": ...} is the structure `Bucket`.
* The two external boundaries (the ollama text-generation subprocess and the
  Python `re` regex engine) are parameters:
  - the primary extraction call is `Option (Option (List Bucket))`: the outer
    `none` is a failed subprocess call (`call_ollama` raises RuntimeError,
    extract_financials.py lines 25-26); the inner `none` covers a response in
    which no JSON array is found, a JSON decode exception, or a non-numeric
    value field (each of which forces the regex fallback, lines 100-121);
    `some (some l)` is a successfully decoded list of well-formed items.
  - the secondary breakdown call is `Option (List Bucket)`: `none` is a failed
    call or failed decode (the exception is caught at lines 233-234 and the
    existing values are kept).
  - `re.search` over the summary text is an oracle
    `String → Option RegexMatch` from the pattern string to the captured
    groups (group 1: the numeric literal, group 2: the optional unit).
* Python list indexing with a possibly negative index (the `-1` sentinel
  returned by the `next(..., -1)` lookups at lines 201-203) is modelled by
  `pyGet` / `pySetValue`, which resolve a negative index from the end of the
  list exactly as Python does.  Out-of-range access raises IndexError in
  Python; it is unreachable at the modelled call sites (the bucket list is
  never empty there), and the model returns a dummy value in that case.
-/

/-- One entry of the bucket list: a JSON object
`{"bucket": <name>, "value": <number>}`. -/
structure Bucket where
  bucket : String
  value : ℚ
deriving DecidableEq

/-- `next((i for i, item in enumerate(buckets) if item["bucket"] == name), -1)`
(extract_financials.py lines 201-203). -/
def pyFindIdx (name : String) (l : List Bucket) : Int :=
  match l.findIdx? (fun b => b.bucket == name) with
  | some i => (i : Int)
  | none => -1

/-- Python list read `l[i]`, with negative indices resolved from the end. -/
def pyGet (l : List Bucket) (i : Int) : Bucket :=
  match (if i < 0 then i + l.length else i) with
  | Int.ofNat n => l.getD n ⟨"", 0⟩
  | Int.negSucc _ => ⟨"", 0⟩

/-- Python assignment `l[i]["value"] = v`, with negative indices resolved from
the end. -/
def pySetValue (l : List Bucket) (i : Int) (v : ℚ) : List Bucket :=
  match (if i < 0 then i + l.length else i) with
  | Int.ofNat n => l.set n ⟨(l.getD n ⟨"", 0⟩).bucket, v⟩
  | Int.negSucc _ => l

/-- Body of the loop over the decoded breakdown response
(extract_financials.py lines 227-231): any returned positive "Products" value
is written into the Products slot, any returned positive "Services" value into
the Services slot. -/
def applyBreakdownItem (products_idx services_idx : Int) (bs : List Bucket)
    (item : Bucket) : List Bucket :=
  let bs1 := if item.bucket = "Products" ∧ item.value > 0 then
      pySetValue bs products_idx item.value else bs
  if item.bucket = "Services" ∧ item.value > 0 then
    pySetValue bs1 services_idx item.value else bs1

/-- The secondary Products/Services breakdown request
(extract_financials.py lines 206-234).  `bd` is the decoded response of the
second ollama call; `none` means the call or its decode failed (the exception
is caught and the bucket list is left unchanged). -/
def breakdownPhase (bd : Option (List Bucket))
    (revenue_idx products_idx services_idx : Int)
    (buckets : List Bucket) : List Bucket :=
  if revenue_idx ≠ -1 ∧
      ((pyGet buckets products_idx).value = 0 ∨
        (pyGet buckets services_idx).value = 0) ∧
      (pyGet buckets revenue_idx).value > 0 then
    match bd with
    | none => buckets
    | some items =>
        items.foldl (applyBreakdownItem products_idx services_idx) buckets
  else buckets

/-- The final validation / proportional rescale
(extract_financials.py lines 236-249).  `sum_parts` and `revenue_val` are read
before any mutation; the Services slot is multiplied after the Products slot
has been written, exactly as in the source (this matters when the two indices
alias the same element). -/
def rescalePhase (revenue_idx products_idx services_idx : Int)
    (buckets : List Bucket) : List Bucket :=
  if (pyGet buckets products_idx).value > 0 ∧
      (pyGet buckets services_idx).value > 0 then
    let sum_parts := (pyGet buckets products_idx).value +
      (pyGet buckets services_idx).value
    let revenue_val := (pyGet buckets revenue_idx).value
    if |sum_parts - revenue_val| > 1 / 100 * revenue_val ∧ revenue_val > 0 then
      if (pyGet buckets products_idx).value > 0 ∧
          (pyGet buckets services_idx).value > 0 then
        let scale := revenue_val / sum_parts
        let b1 := pySetValue buckets products_idx
          ((pyGet buckets products_idx).value * scale)
        pySetValue b1 services_idx ((pyGet b1 services_idx).value * scale)
      else buckets
    else buckets
  else buckets

/-- The whole reconciliation section of `extract_financial_buckets_from_summary`
(extract_financials.py lines 200-249): the three indices are computed once on
the incoming list, then the breakdown request runs, then the rescale. -/
def reconcile (bd : Option (List Bucket)) (buckets : List Bucket) :
    List Bucket :=
  rescalePhase (pyFindIdx "Revenue" buckets) (pyFindIdx "Products" buckets)
    (pyFindIdx "Services" buckets)
    (breakdownPhase bd (pyFindIdx "Revenue" buckets)
      (pyFindIdx "Products" buckets) (pyFindIdx "Services" buckets) buckets)

/-- A fully populated BucketSet: one entry per taxonomy key, in the order of
the `patterns` table / extraction prompt of extract_financials.py. -/
def mkBucketSet (p s r cor gp oe oi ie ii oie tax ni : ℚ) : List Bucket :=
  [⟨"Products", p⟩, ⟨"Services", s⟩, ⟨"Revenue", r⟩, ⟨"Cost of Revenue", cor⟩,
    ⟨"Gross Profit", gp⟩, ⟨"Operating Expenses", oe⟩, ⟨"Operating Income", oi⟩,
    ⟨"Interest Expense", ie⟩, ⟨"Interest Income", ii⟩,
    ⟨"Other Income/Expense", oie⟩, ⟨"Taxes", tax⟩, ⟨"Net Income", ni⟩]

/-- The fixed taxonomy, in extraction order. -/
def TAXONOMY : List String :=
  ["Products", "Services", "Revenue", "Cost of Revenue", "Gross Profit",
   "Operating Expenses", "Operating Income", "Interest Expense",
   "Interest Income", "Other Income/Expense", "Taxes", "Net Income"]

/-- Value-level effect of the breakdown loop on one slot: the last item of
the response carrying `name` and a positive value wins; with no such item the
initial value is kept. -/
def bdVal (name : String) (items : List Bucket) (v : ℚ) : ℚ :=
  items.foldl
    (fun cur it => if it.bucket = name ∧ it.value > 0 then it.value else cur) v

/-- Value-level effect of the breakdown loop on the Products slot. -/
def bdP (items : List Bucket) (p : ℚ) : ℚ := bdVal "Products" items p

/-- Value-level effect of the breakdown loop on the Services slot. -/
def bdS (items : List Bucket) (s : ℚ) : ℚ := bdVal "Services" items s

/-- Value-level form of the breakdown phase on a proper BucketSet
(Products, Services, Revenue present at distinct positions). -/
def reconPS (bd : Option (List Bucket)) (p s r : ℚ) : ℚ × ℚ :=
  if (p = 0 ∨ s = 0) ∧ r > 0 then
    match bd with
    | none => (p, s)
    | some items => (bdP items p, bdS items s)
  else (p, s)

/-- Value-level form of the rescale phase on a proper BucketSet. -/
def rescalePS (r : ℚ) (ps : ℚ × ℚ) : ℚ × ℚ :=
  if ps.1 > 0 ∧ ps.2 > 0 ∧ |ps.1 + ps.2 - r| > 1 / 100 * r ∧ r > 0 then
    (ps.1 * (r / (ps.1 + ps.2)), ps.2 * (r / (ps.1 + ps.2)))
  else ps

/-- Value-level form of the whole reconciliation on a proper BucketSet. -/
def reconTriple (bd : Option (List Bucket)) (p s r : ℚ) : ℚ × ℚ :=
  rescalePS r (reconPS bd p s r)

/-- Python `[x].head-cons` shape shared by every proper BucketSet: Products,
Services, Revenue first, then the rest of the taxonomy. -/
def psr (p s r : ℚ) (rest : List Bucket) : List Bucket :=
  ⟨"Products", p⟩ :: ⟨"Services", s⟩ :: ⟨"Revenue", r⟩ :: rest

/-- Rounding to two decimal places, used to compare exact rescaled values with
the two-decimal figures quoted in the specification examples. -/
def round2 (q : ℚ) : ℚ := (round (q * 100) : ℤ) / 100

/-- Result of one `re.search(pattern, summary_text, flags=re.IGNORECASE)`
call over the fixed summary text: group 1 is the captured numeric literal,
group 2 the optional captured unit word.  The regex engine itself (including
its case-insensitive matching) is an external library and is modelled as an
oracle from the pattern string to the match result. -/
structure RegexMatch where
  group1 : String
  group2 : Option String

/-- `num_str = m.group(1).replace(",", "")` (extract_financials.py line 188). -/
def stripCommas (s : String) : String :=
  String.mk (s.data.filter (fun c => c != ','))

/-- Numeric value of a digit string. -/
def digitsVal (cs : List Char) : Nat :=
  cs.foldl (fun a c => a * 10 + (c.toNat - Char.toNat '0')) 0

/-- Python `float(num_str)` (line 190), restricted to the strings that the
capture group `([0-9,]+(...)?)` can produce once commas are removed: digits
with at most one decimal point.  Returns `none` exactly when Python raises
ValueError there, i.e. when no digit is left (for example an all-comma
capture). -/
def pyFloat (s : String) : Option Rat :=
  let cs := s.data
  if cs.any (fun c => !(c.isDigit || c == '.')) then none
  else if (cs.filter (fun c => c == '.')).length > 1 then none
  else if !(cs.any Char.isDigit) then none
  else
    let ip := cs.takeWhile (fun c => c != '.')
    let fp := (cs.dropWhile (fun c => c != '.')).drop 1
    some ((digitsVal ip : ℚ) + (digitsVal fp : ℚ) / (10 : ℚ) ^ fp.length)

/-- Python `str.lower()` on the captured unit word (ASCII). -/
def pyLower (s : String) : String := String.mk (s.data.map Char.toLower)

/-- `unit_multiplier` dict (extract_financials.py lines 178-181), applied to
the lower-cased captured unit; absent keys default to 1.0 through dict.get. -/
def unit_multiplier (u : String) : ℚ :=
  if u = "million" ∨ u = "m" ∨ u = "M" then 1
  else if u = "billion" ∨ u = "b" ∨ u = "B" then 1000
  else 1

/-- Common tail of every fallback pattern: optional dollar sign, the numeric
capture group and the optional unit capture group. -/
def numTail : String :=
  "[^0-9$]*\\$?([\\d,]+(?:\\.\\d+)?)(?:\\s*(million|billion|m|b|M|B))?"

/-- The regex pattern table of the fallback extractor (extract_financials.py
lines 124-175): per taxonomy key, the ordered list of label-synonym patterns. -/
def patterns : List (String × List String) :=
  [("Products",
      ["Products(?:\\s+revenue)?" ++ numTail, "Product\\s+sales" ++ numTail]),
   ("Services",
      ["Services(?:\\s+revenue)?" ++ numTail, "Service\\s+revenue" ++ numTail]),
   ("Revenue",
      ["(?:Total\\s+)?Revenue" ++ numTail, "Net\\s+sales" ++ numTail]),
   ("Cost of Revenue",
      ["Cost\\s+of\\s+(?:Revenue|Sales)" ++ numTail, "COGS" ++ numTail]),
   ("Gross Profit",
      ["Gross\\s+Profit" ++ numTail, "Gross\\s+Margin" ++ numTail]),
   ("Operating Expenses",
      ["Operating\\s+Expenses" ++ numTail, "(?:Total\\s+)?OPEX" ++ numTail]),
   ("Operating Income",
      ["Operating\\s+Income" ++ numTail, "Income\\s+from\\s+operations" ++ numTail,
       "Operating\\s+(?:profit|earnings)" ++ numTail]),
   ("Interest Expense",
      ["Interest\\s+Expense" ++ numTail, "Interest\\s+expenses" ++ numTail]),
   ("Interest Income",
      ["Interest\\s+Income" ++ numTail, "Interest\\s+earned" ++ numTail]),
   ("Other Income/Expense",
      ["Other\\s+Income(?:/Expense)?" ++ numTail,
       "Other\\s+income\\s+and\\s+expense" ++ numTail]),
   ("Taxes",
      ["(?:Income\\s+)?Tax(?:es)?(?:\\s+Expense)?" ++ numTail,
       "Provision\\s+for\\s+(?:income\\s+)?taxes" ++ numTail]),
   ("Net Income",
      ["Net\\s+Income" ++ numTail, "Net\\s+Earnings" ++ numTail,
       "Net\\s+Profit" ++ numTail])]

/-- Pattern list of one taxonomy key. -/
def patternsFor (k : String) : List String :=
  ((patterns.find? (fun kp => kp.1 == k)).map (fun kp => kp.2)).getD []

/-- The per-key pattern loop of the fallback extractor (lines 184-196): try
the patterns in order; on a match whose captured literal parses, the value is
set (scaled by the unit multiplier) and the loop breaks — even when the parsed
value is 0.0; a match whose literal fails to parse continues with the next
pattern; when no pattern produces a value the key keeps 0.0. -/
def scanPatterns (search : String → Option RegexMatch) :
    List String → ℚ
  | [] => 0
  | pat :: rest =>
    match search pat with
    | none => scanPatterns search rest
    | some m =>
      match pyFloat (stripCommas m.group1) with
      | none => scanPatterns search rest
      | some v => v * unit_multiplier (pyLower (m.group2.getD ""))

/-- The regex fallback extractor (lines 122-198): one Bucket per taxonomy key,
in table order. -/
def fallbackExtract (search : String → Option RegexMatch) : List Bucket :=
  patterns.map (fun kp => ⟨kp.1, scanPatterns search kp.2⟩)

/-- The condition at line 121 that forces the regex fallback: no decoded
items, or every decoded value equal to zero.  (A decode failure or a
non-numeric decoded value is modelled as the decoded list being absent, which
takes the same fallback path.) -/
def primaryUnusable (buckets : List Bucket) : Bool :=
  buckets.isEmpty || buckets.all (fun b => b.value == 0)

/-- `extract_financial_buckets_from_summary` (extract_financials.py lines
30-251) with its three external interactions as parameters: `primary` is the
first ollama call (outer `none`: the subprocess call raised, which propagates;
inner value: the decoded JSON array when usable), `search` is the regex engine
applied to the fixed summary text, and `bd` is the decoded secondary breakdown
response.  A raised RuntimeError is the `Except.error` case. -/
def extract_financial_buckets_from_summary
    (primary : Option (Option (List Bucket)))
    (search : String → Option RegexMatch)
    (bd : Option (List Bucket)) : Except String (List Bucket) :=
  match primary with
  | none => Except.error "Ollama call failed"
  | some decoded =>
    let buckets := decoded.getD []
    let chosen := if primaryUnusable buckets then fallbackExtract search
      else buckets
    Except.ok (reconcile bd chosen)

/-- First Revenue pattern of the table. -/
def revPat : String := "(?:Total\\s+)?Revenue" ++ numTail

/-- First and second Products patterns of the table. -/
def prodPat1 : String := "Products(?:\\s+revenue)?" ++ numTail

def prodPat2 : String := "Product\\s+sales" ++ numTail

/-- Regex-engine behaviour of a summary text in which only the first Revenue
pattern matches, capturing "1,000" with no unit word. -/
def revenueSearch : String → Option RegexMatch := fun pat =>
  if pat = revPat then some ⟨"1,000", none⟩ else none

/-- Regex-engine behaviour in which the first Products pattern captures an
all-comma literal (which fails to parse) and the second captures 2.5 billion. -/
def searchJunkThenBillion : String → Option RegexMatch := fun pat =>
  if pat = prodPat1 then some ⟨",,", none⟩
  else if pat = prodPat2 then some ⟨"2.5", some "billion"⟩ else none

/-- Regex-engine behaviour in which the first Products pattern captures the
literal 0 and the second would capture 7. -/
def searchZeroThenSeven : String → Option RegexMatch := fun pat =>
  if pat = prodPat1 then some ⟨"0", none⟩
  else if pat = prodPat2 then some ⟨"7", none⟩ else none

/-- Python dict assignment `d[k] = v`: replace the value of an existing key,
otherwise append the pair; insertion order is preserved. -/
def dictSet (d : List (String × ℚ)) (k : String) (v : ℚ) :
    List (String × ℚ) :=
  if d.any (fun kv => kv.1 == k) then
    d.map (fun kv => if kv.1 = k then (k, v) else kv)
  else d ++ [(k, v)]

/-- Python `k in d`. -/
def dictContains (d : List (String × ℚ)) (k : String) : Bool :=
  d.any (fun kv => kv.1 == k)

/-- Python `d.get(k)` / `d[k]` on a dict with unique keys. -/
def dictGet? (d : List (String × ℚ)) (k : String) : Option ℚ :=
  (d.find? (fun kv => kv.1 == k)).map (fun kv => kv.2)

/-- `bucket_values` (visualize_sankey.py lines 36-49): every raw item with a
string name and a numeric non-NaN value is inserted; in this exact-rational
model every item qualifies (NaN is a floating-point artefact with no rational
counterpart). -/
def bucket_values (raw : List Bucket) : List (String × ℚ) :=
  raw.foldl (fun d b => dictSet d b.bucket b.value) []

/-- Condition of the EBIT derivation (visualize_sankey.py line 55). -/
def ebitCond (raw : List Bucket) : Bool :=
  dictContains (bucket_values raw) "Operating Income" &&
    !(dictContains (bucket_values raw) "EBIT")

/-- Derived EBIT value (lines 56-59): Operating Income, plus
Other Income/Expense when that key is present. -/
def ebitVal (raw : List Bucket) : ℚ :=
  ((dictGet? (bucket_values raw) "Operating Income").getD 0) +
    (if dictContains (bucket_values raw) "Other Income/Expense" then
      (dictGet? (bucket_values raw) "Other Income/Expense").getD 0 else 0)

/-- `derived_items` after the EBIT step (lines 52-61). -/
def derived1 (raw : List Bucket) : List (String × ℚ) :=
  if ebitCond raw then dictSet [] "EBIT" (ebitVal raw) else []

/-- Condition of the EBT derivation (line 64): EBIT reported or derived, and
EBT not reported. -/
def ebtCond (raw : List Bucket) : Bool :=
  (dictContains (bucket_values raw) "EBIT" ||
      dictContains (derived1 raw) "EBIT") &&
    !(dictContains (bucket_values raw) "EBT")

/-- Derived EBT value (lines 65-71):
`derived_items.get('EBIT', bucket_values.get('EBIT', 0))`, plus Interest
Income when present, minus Interest Expense when present. -/
def ebtVal (raw : List Bucket) : ℚ :=
  ((dictGet? (derived1 raw) "EBIT").getD
      ((dictGet? (bucket_values raw) "EBIT").getD 0)) +
    (if dictContains (bucket_values raw) "Interest Income" then
      (dictGet? (bucket_values raw) "Interest Income").getD 0 else 0) -
    (if dictContains (bucket_values raw) "Interest Expense" then
      (dictGet? (bucket_values raw) "Interest Expense").getD 0 else 0)

/-- `derived_items` after both derivation steps (lines 52-73). -/
def derived_items (raw : List Bucket) : List (String × ℚ) :=
  if ebtCond raw then dictSet (derived1 raw) "EBT" (ebtVal raw)
  else derived1 raw

/-- `nodes = valid_items` (lines 38-79): the raw item names in order, then
"EBIT" when it was derived, then "EBT" when it was derived. -/
def graphNodes (raw : List Bucket) : List String :=
  (raw.map (fun b => b.bucket) ++ (if ebitCond raw then ["EBIT"] else [])) ++
    (if ebtCond raw then ["EBT"] else [])

/-- `add_flow(src, tgt)` (lines 87-89) as the list segment it appends: the
pair when both endpoints are node names, nothing otherwise. -/
def flowCand (ns : List String) (src tgt : String) :
    List (String × String) :=
  if src ∈ ns ∧ tgt ∈ ns then [(src, tgt)] else []

/-- The unconditional flow candidates (lines 92-102). -/
def flowsA (ns : List String) : List (String × String) :=
  flowCand ns "Products" "Revenue" ++ flowCand ns "Services" "Revenue" ++
    flowCand ns "Revenue" "Cost of Revenue" ++
    flowCand ns "Revenue" "Gross Profit" ++
    flowCand ns "Gross Profit" "Operating Expenses" ++
    flowCand ns "Gross Profit" "Operating Income"

/-- Operating-Income routing (lines 104-116): into EBIT when EBIT is a node,
otherwise the flattened fallback topology. -/
def flowsB (ns : List String) : List (String × String) :=
  if "EBIT" ∈ ns then
    flowCand ns "Operating Income" "EBIT" ++
      (if "Other Income/Expense" ∈ ns then
        flowCand ns "Other Income/Expense" "EBIT" else [])
  else
    (if "Interest Income" ∈ ns then
      flowCand ns "Operating Income" "Interest Income" else []) ++
    (if "Interest Expense" ∈ ns then
      flowCand ns "Operating Income" "Interest Expense" else []) ++
    (if "Other Income/Expense" ∈ ns then
      flowCand ns "Operating Income" "Other Income/Expense" else [])

/-- EBIT to EBT with the interest components (lines 118-124). -/
def flowsC (ns : List String) : List (String × String) :=
  if "EBIT" ∈ ns ∧ "EBT" ∈ ns then
    flowCand ns "EBIT" "EBT" ++
      (if "Interest Income" ∈ ns then flowCand ns "Interest Income" "EBT"
        else []) ++
      (if "Interest Expense" ∈ ns then flowCand ns "Interest Expense" "EBT"
        else [])
  else []

/-- Into Net Income (lines 126-135). -/
def flowsD (ns : List String) : List (String × String) :=
  if "EBT" ∈ ns then
    flowCand ns "EBT" "Net Income" ++
      (if "Taxes" ∈ ns then flowCand ns "Taxes" "Net Income" else [])
  else
    flowCand ns "Operating Income" "Net Income" ++
      (if "Taxes" ∈ ns then flowCand ns "Taxes" "Net Income" else [])

/-- Direct interest edges when neither EBIT nor EBT exists (lines 137-141). -/
def flowsE (ns : List String) : List (String × String) :=
  (if "Interest Income" ∈ ns ∧ "Net Income" ∈ ns ∧
      ¬ ("EBIT" ∈ ns) ∧ ¬ ("EBT" ∈ ns) then
    flowCand ns "Interest Income" "Net Income" else []) ++
  (if "Interest Expense" ∈ ns ∧ "Net Income" ∈ ns ∧
      ¬ ("EBIT" ∈ ns) ∧ ¬ ("EBT" ∈ ns) then
    flowCand ns "Interest Expense" "Net Income" else [])

/-- The complete conditional edge set (lines 84-141), in append order. -/
def graphFlows (ns : List String) : List (String × String) :=
  flowsA ns ++ flowsB ns ++ flowsC ns ++ flowsD ns ++ flowsE ns

/-- Edge relation of a flow list. -/
def FlowRel (fl : List (String × String)) (a b : String) : Prop :=
  (a, b) ∈ fl

/-- Stage index certifying acyclicity: every edge the builder can emit goes
from a strictly lower to a strictly higher stage. -/
def stageRank : String → Nat
  | "Products" => 0
  | "Services" => 0
  | "Revenue" => 1
  | "Cost of Revenue" => 2
  | "Gross Profit" => 2
  | "Operating Expenses" => 3
  | "Operating Income" => 3
  | "Other Income/Expense" => 4
  | "Interest Income" => 4
  | "Interest Expense" => 4
  | "EBIT" => 5
  | "EBT" => 6
  | "Taxes" => 6
  | "Net Income" => 7
  | _ => 8

/-- Out-degree of a node in a flow list. -/
def outDeg (fl : List (String × String)) (n : String) : Nat :=
  (fl.filter (fun e => e.1 == n)).length

/-- The example BucketSet of C5: Operating Income=200, Other
Income/Expense=-20, Interest Income=5, Interest Expense=15, Taxes=40, the
remaining taxonomy keys 0. -/
def exC5 : List Bucket := mkBucketSet 0 0 0 0 0 0 200 15 5 (-20) 40 0

/-- The `levels` stage table (visualize_sankey.py lines 221-229); the Python
source writes the stages as the decimals 0.0, 0.15, 0.3, 0.45, 0.6, 0.75,
0.9. -/
def levels : List (ℚ × List String) :=
  [(0, ["Products", "Services"]),
   (15 / 100, ["Revenue"]),
   (3 / 10, ["Cost of Revenue", "Gross Profit"]),
   (45 / 100, ["Operating Expenses", "Operating Income"]),
   (6 / 10, ["EBIT", "Other Income/Expense"]),
   (75 / 100, ["Interest Income", "Interest Expense", "EBT"]),
   (9 / 10, ["Taxes", "Net Income"])]

/-- `node_x` (lines 217, 231-235): the stage of the level containing the
name; a name in no level keeps the default 0.0. -/
def node_x (n : String) : ℚ :=
  match levels.find? (fun lv => lv.2.contains n) with
  | some lv => lv.1
  | none => 0

/-- Keys of `idx` in insertion order: the unique node names, first occurrence
first (line 80). -/
def dedupFirst (ns : List String) : List String :=
  ns.foldl (fun acc n => if n ∈ acc then acc else acc ++ [n]) []

/-- One `x_groups` entry (lines 239-244): the unique node names of one stage,
in idx insertion order. -/
def stageGroup (ns : List String) (x : ℚ) : List String :=
  (dedupFirst ns).filter (fun n => node_x n == x)

/-- The vertical-position loop over one stage group (lines 247-254): node i
of n gets `0.1 + (i / (n - 1)) * 0.8` when n > 1; a single node is centered
at 0.5. -/
def assignYAux (total : Nat) : Nat → List String → List (String × ℚ)
  | _, [] => []
  | i, n :: rest =>
    (n, if 1 < total then
        1 / 10 + ((i : ℚ) / ((total : ℚ) - 1)) * (8 / 10) else 1 / 2) ::
      assignYAux total (i + 1) rest

/-- yPositions of one stage group, each name paired with its offset. -/
def assignY (g : List String) : List (String × ℚ) :=
  assignYAux g.length 0 g

lemma mkBucketSet_eq_psr (p s r cor gp oe oi ie ii oie tax ni : ℚ) :
    mkBucketSet p s r cor gp oe oi ie ii oie tax ni =
      psr p s r [⟨"Cost of Revenue", cor⟩, ⟨"Gross Profit", gp⟩,
        ⟨"Operating Expenses", oe⟩, ⟨"Operating Income", oi⟩,
        ⟨"Interest Expense", ie⟩, ⟨"Interest Income", ii⟩,
        ⟨"Other Income/Expense", oie⟩, ⟨"Taxes", tax⟩, ⟨"Net Income", ni⟩] := rfl

lemma pyFindIdx_products (p s r : ℚ) (rest : List Bucket) :
    pyFindIdx "Products" (psr p s r rest) = 0 := rfl

lemma pyFindIdx_services (p s r : ℚ) (rest : List Bucket) :
    pyFindIdx "Services" (psr p s r rest) = 1 := rfl

lemma pyFindIdx_revenue (p s r : ℚ) (rest : List Bucket) :
    pyFindIdx "Revenue" (psr p s r rest) = 2 := rfl

lemma pyGet_psr_0 (p s r : ℚ) (rest : List Bucket) :
    pyGet (psr p s r rest) 0 = ⟨"Products", p⟩ := rfl

lemma pyGet_psr_1 (p s r : ℚ) (rest : List Bucket) :
    pyGet (psr p s r rest) 1 = ⟨"Services", s⟩ := rfl

lemma pyGet_psr_2 (p s r : ℚ) (rest : List Bucket) :
    pyGet (psr p s r rest) 2 = ⟨"Revenue", r⟩ := rfl

lemma pySetValue_psr_0 (p s r v : ℚ) (rest : List Bucket) :
    pySetValue (psr p s r rest) 0 v = psr v s r rest := rfl

lemma pySetValue_psr_1 (p s r v : ℚ) (rest : List Bucket) :
    pySetValue (psr p s r rest) 1 v = psr p v r rest := rfl

lemma foldl_breakdown_psr (r : ℚ) (rest : List Bucket) (items : List Bucket) :
    ∀ p s : ℚ, items.foldl (applyBreakdownItem 0 1) (psr p s r rest) =
      psr (bdP items p) (bdS items s) r rest := by
  induction items with
  | nil => intro p s; rfl
  | cons it tl ih =>
      intro p s
      rw [List.foldl_cons]
      have step : applyBreakdownItem 0 1 (psr p s r rest) it =
          psr (if it.bucket = "Products" ∧ it.value > 0 then it.value else p)
            (if it.bucket = "Services" ∧ it.value > 0 then it.value else s)
            r rest := by
        unfold applyBreakdownItem
        split_ifs <;> simp only [pySetValue_psr_0, pySetValue_psr_1]
      rw [step, ih]
      have hP : bdP (it :: tl) p =
          bdP tl (if it.bucket = "Products" ∧ it.value > 0 then it.value else p) := rfl
      have hS : bdS (it :: tl) s =
          bdS tl (if it.bucket = "Services" ∧ it.value > 0 then it.value else s) := rfl
      rw [hP, hS]

lemma breakdownPhase_psr (bd : Option (List Bucket)) (p s r : ℚ)
    (rest : List Bucket) :
    breakdownPhase bd 2 0 1 (psr p s r rest) =
      psr (reconPS bd p s r).1 (reconPS bd p s r).2 r rest := by
  unfold breakdownPhase reconPS
  rw [pyGet_psr_0, pyGet_psr_1, pyGet_psr_2]
  by_cases h : (p = 0 ∨ s = 0) ∧ r > 0
  · rw [if_pos ⟨by decide, h.1, h.2⟩, if_pos h]
    cases bd with
    | none => rfl
    | some items => exact foldl_breakdown_psr r rest items p s
  · rw [if_neg (fun hc => h ⟨hc.2.1, hc.2.2⟩), if_neg h]

lemma rescalePhase_psr (p s r : ℚ) (rest : List Bucket) :
    rescalePhase 2 0 1 (psr p s r rest) =
      psr (rescalePS r (p, s)).1 (rescalePS r (p, s)).2 r rest := by
  unfold rescalePhase rescalePS
  rw [pyGet_psr_0, pyGet_psr_1, pyGet_psr_2]
  simp only []
  by_cases h1 : p > 0 ∧ s > 0
  · rw [if_pos h1]
    by_cases h2 : |p + s - r| > 1 / 100 * r ∧ r > 0
    · rw [if_pos h2, if_pos h1, if_pos ⟨h1.1, h1.2, h2.1, h2.2⟩]
      rw [pySetValue_psr_0, pyGet_psr_1, pySetValue_psr_1]
    · rw [if_neg h2,
        if_neg (fun hc : p > 0 ∧ s > 0 ∧ |p + s - r| > 1 / 100 * r ∧ r > 0 =>
          h2 ⟨hc.2.2.1, hc.2.2.2⟩)]
  · rw [if_neg h1,
      if_neg (fun hc : p > 0 ∧ s > 0 ∧ |p + s - r| > 1 / 100 * r ∧ r > 0 =>
        h1 ⟨hc.1, hc.2.1⟩)]

/-- Reconciliation on a proper BucketSet only rewrites the Products and
Services values, through `reconTriple`. -/
lemma reconcile_psr (bd : Option (List Bucket)) (p s r : ℚ)
    (rest : List Bucket) :
    reconcile bd (psr p s r rest) =
      psr (reconTriple bd p s r).1 (reconTriple bd p s r).2 r rest := by
  unfold reconcile reconTriple
  rw [pyFindIdx_products, pyFindIdx_services, pyFindIdx_revenue,
    breakdownPhase_psr, rescalePhase_psr]

lemma bdVal_cons (name : String) (it : Bucket) (tl : List Bucket) (v : ℚ) :
    bdVal name (it :: tl) v =
      bdVal name tl (if it.bucket = name ∧ it.value > 0 then it.value else v) := rfl

lemma bdVal_cases (name : String) (items : List Bucket) :
    ∀ v : ℚ, bdVal name items v = v ∨
      ∀ w : ℚ, bdVal name items w = bdVal name items v := by
  induction items with
  | nil => intro v; left; rfl
  | cons it tl ih =>
      intro v
      by_cases h : it.bucket = name ∧ it.value > 0
      · right
        intro w
        rw [bdVal_cons, bdVal_cons, if_pos h, if_pos h]
      · rcases ih v with h1 | h1
        · left
          rw [bdVal_cons, if_neg h, h1]
        · right
          intro w
          rw [bdVal_cons, if_neg h, bdVal_cons, if_neg h, h1 w]

lemma bdVal_idem (name : String) (items : List Bucket) (v : ℚ) :
    bdVal name items (bdVal name items v) = bdVal name items v := by
  rcases bdVal_cases name items v with h | h
  · rw [h]
    exact h
  · exact h (bdVal name items v)

lemma reconPS_none_eq (p s r : ℚ) : reconPS none p s r = (p, s) := by
  unfold reconPS
  split <;> rfl

lemma reconPS_some_eq (items : List Bucket) (p s r : ℚ) :
    reconPS (some items) p s r =
      if (p = 0 ∨ s = 0) ∧ r > 0 then (bdP items p, bdS items s)
      else (p, s) := by
  unfold reconPS
  split <;> rfl

lemma reconPS_ne_zero (bd : Option (List Bucket)) (p s r : ℚ)
    (h1 : p ≠ 0) (h2 : s ≠ 0) : reconPS bd p s r = (p, s) := by
  unfold reconPS
  rw [if_neg]
  rintro ⟨h0, -⟩
  rcases h0 with h0 | h0
  exacts [h1 h0, h2 h0]

lemma reconPS_idem (bd : Option (List Bucket)) (p s r : ℚ) :
    reconPS bd (reconPS bd p s r).1 (reconPS bd p s r).2 r =
      reconPS bd p s r := by
  cases bd with
  | none =>
      rw [reconPS_none_eq p s r]
      exact reconPS_none_eq p s r
  | some items =>
      rw [reconPS_some_eq items p s r]
      by_cases h : (p = 0 ∨ s = 0) ∧ r > 0
      · rw [if_pos h, reconPS_some_eq items _ _ r]
        split
        · show (bdP items (bdP items p), bdS items (bdS items s)) =
            (bdP items p, bdS items s)
          unfold bdP bdS
          rw [bdVal_idem, bdVal_idem]
        · rfl
      · rw [if_neg h, reconPS_some_eq items _ _ r]
        exact if_neg h

lemma rescalePS_pos (r : ℚ) (ps : ℚ × ℚ)
    (h : ps.1 > 0 ∧ ps.2 > 0 ∧ |ps.1 + ps.2 - r| > 1 / 100 * r ∧ r > 0) :
    rescalePS r ps =
      (ps.1 * (r / (ps.1 + ps.2)), ps.2 * (r / (ps.1 + ps.2))) := if_pos h

lemma rescalePS_neg (r : ℚ) (ps : ℚ × ℚ)
    (h : ¬ (ps.1 > 0 ∧ ps.2 > 0 ∧ |ps.1 + ps.2 - r| > 1 / 100 * r ∧ r > 0)) :
    rescalePS r ps = ps := if_neg h

lemma reconTriple_idem (bd : Option (List Bucket)) (p s r : ℚ) :
    reconTriple bd (reconTriple bd p s r).1 (reconTriple bd p s r).2 r =
      reconTriple bd p s r := by
  unfold reconTriple
  by_cases h : (reconPS bd p s r).1 > 0 ∧ (reconPS bd p s r).2 > 0 ∧
      |(reconPS bd p s r).1 + (reconPS bd p s r).2 - r| > 1 / 100 * r ∧ r > 0
  · rw [rescalePS_pos r _ h]
    have hsum : (reconPS bd p s r).1 + (reconPS bd p s r).2 > 0 :=
      add_pos h.1 h.2.1
    have hk : r / ((reconPS bd p s r).1 + (reconPS bd p s r).2) > 0 :=
      div_pos h.2.2.2 hsum
    have hp1 : (reconPS bd p s r).1 *
        (r / ((reconPS bd p s r).1 + (reconPS bd p s r).2)) > 0 :=
      mul_pos h.1 hk
    have hp2 : (reconPS bd p s r).2 *
        (r / ((reconPS bd p s r).1 + (reconPS bd p s r).2)) > 0 :=
      mul_pos h.2.1 hk
    rw [reconPS_ne_zero bd _ _ r (ne_of_gt hp1) (ne_of_gt hp2)]
    apply rescalePS_neg
    rintro ⟨-, -, habs, -⟩
    have hne : (reconPS bd p s r).1 + (reconPS bd p s r).2 ≠ 0 :=
      ne_of_gt hsum
    have hsumr : (reconPS bd p s r).1 *
          (r / ((reconPS bd p s r).1 + (reconPS bd p s r).2)) +
        (reconPS bd p s r).2 *
          (r / ((reconPS bd p s r).1 + (reconPS bd p s r).2)) = r := by
      field_simp
      ring
    simp only [] at habs
    rw [hsumr, sub_self, abs_zero] at habs
    linarith [h.2.2.2]
  · rw [rescalePS_neg r _ h, reconPS_idem]
    exact rescalePS_neg r _ h

/-- C3: for every BucketSet (all twelve taxonomy keys present), with the
external breakdown response held fixed, running the reconciliation step a
second time on the output of the first run changes no value. -/
theorem C3_reconcile_idempotent (bd : Option (List Bucket))
    (p s r cor gp oe oi ie ii oie tax ni : ℚ) :
    reconcile bd
        (reconcile bd (mkBucketSet p s r cor gp oe oi ie ii oie tax ni)) =
      reconcile bd (mkBucketSet p s r cor gp oe oi ie ii oie tax ni) := by
  rw [mkBucketSet_eq_psr, reconcile_psr, reconcile_psr, reconTriple_idem]

/-- C2: at the final reconciliation check, if Products and Services are both
positive, Revenue is positive, and the sum of Products and Services deviates
from Revenue by more than one percent of Revenue, both are multiplied by the
single factor Revenue / (Products + Services) so that their sum equals
Revenue; for Products=600, Services=500, Revenue=1000 the exact rescaled
values are 6000/11 and 5000/11, which round to 545.45 and 454.55 at two
decimals and sum to exactly 1000. -/
theorem C2_rescale :
    (∀ (bd : Option (List Bucket)) (p s r cor gp oe oi ie ii oie tax ni : ℚ),
      p > 0 → s > 0 → r > 0 → |p + s - r| > 1 / 100 * r →
      reconcile bd (mkBucketSet p s r cor gp oe oi ie ii oie tax ni) =
        mkBucketSet (p * (r / (p + s))) (s * (r / (p + s))) r
          cor gp oe oi ie ii oie tax ni ∧
      p * (r / (p + s)) + s * (r / (p + s)) = r) ∧
    (reconcile none (mkBucketSet 600 500 1000 0 0 0 0 0 0 0 0 0) =
        mkBucketSet (6000 / 11) (5000 / 11) 1000 0 0 0 0 0 0 0 0 0 ∧
      round2 (6000 / 11) = 545.45 ∧ round2 (5000 / 11) = 454.55 ∧
      (6000 / 11 : ℚ) + 5000 / 11 = 1000) := by
  constructor
  · intro bd p s r cor gp oe oi ie ii oie tax ni hp hs hr hdev
    have hne : p + s ≠ 0 := ne_of_gt (add_pos hp hs)
    have hps : reconPS bd p s r = (p, s) :=
      reconPS_ne_zero bd p s r (ne_of_gt hp) (ne_of_gt hs)
    have hrt : reconTriple bd p s r =
        (p * (r / (p + s)), s * (r / (p + s))) := by
      unfold reconTriple
      rw [hps]
      exact rescalePS_pos r (p, s) ⟨hp, hs, hdev, hr⟩
    refine ⟨?_, ?_⟩
    · rw [mkBucketSet_eq_psr, reconcile_psr, hrt]
      rfl
    · field_simp
      ring
  · have h1 : reconTriple none 600 500 1000 = (6000 / 11, 5000 / 11) := by
      unfold reconTriple
      rw [reconPS_ne_zero none 600 500 1000 (by norm_num) (by norm_num)]
      rw [rescalePS_pos 1000 (600, 500) (by norm_num)]
      norm_num
    refine ⟨?_, ?_, ?_, by norm_num⟩
    · rw [mkBucketSet_eq_psr, reconcile_psr, h1]
      rfl
    · unfold round2
      norm_num [round_eq]
    · unfold round2
      norm_num [round_eq]

theorem C2_witness :
    (600 : ℚ) > 0 ∧ (500 : ℚ) > 0 ∧ (1000 : ℚ) > 0 ∧
      |(600 : ℚ) + 500 - 1000| > 1 / 100 * 1000 ∧
      (reconcile none (mkBucketSet 600 500 1000 1 1 1 1 1 1 1 1 1) =
          mkBucketSet (600 * (1000 / (600 + 500))) (500 * (1000 / (600 + 500)))
            1000 1 1 1 1 1 1 1 1 1 ∧
        600 * ((1000 : ℚ) / (600 + 500)) + 500 * (1000 / (600 + 500)) = 1000) :=
  ⟨by norm_num, by norm_num, by norm_num, by norm_num,
    C2_rescale.1 none 600 500 1000 1 1 1 1 1 1 1 1 1 (by norm_num) (by norm_num)
      (by norm_num) (by norm_num)⟩

/-- C6 counterexample: with Revenue=1000, Products=600 (already positive) and
Services=0, a breakdown response of Products=700, Services=300 overwrites the
already positive Products slot with 700, so the breakdown does not only fill
the slots that were zero. -/
theorem C6_counterexample :
    reconcile (some [⟨"Products", 700⟩, ⟨"Services", 300⟩])
        (mkBucketSet 600 0 1000 0 0 0 0 0 0 0 0 0) =
      mkBucketSet 700 300 1000 0 0 0 0 0 0 0 0 0 ∧
    (600 : ℚ) > 0 ∧ (700 : ℚ) ≠ 600 := by
  refine ⟨?_, by norm_num, by norm_num⟩
  rw [mkBucketSet_eq_psr, reconcile_psr]
  norm_num [reconTriple, reconPS_some_eq, rescalePS, bdP, bdS, bdVal, psr,
    mkBucketSet, if_neg (show ¬ ("Services" = "Products") by decide),
    if_neg (show ¬ ("Products" = "Services") by decide)]

/-- C6 (amended): when the breakdown request runs (it is triggered as soon as
one of the two slots is zero and Revenue is positive), any returned positive
Products/Services value is written into the corresponding slot even when that
slot was already positive — the written value does not depend on the current
slot value; apart from Products and Services no taxonomy entry is ever
modified by reconciliation. -/
theorem C6_breakdown_overwrite :
    (∀ (bd : Option (List Bucket)) (p s r cor gp oe oi ie ii oie tax ni : ℚ),
      reconcile bd (mkBucketSet p s r cor gp oe oi ie ii oie tax ni) =
        mkBucketSet (reconTriple bd p s r).1 (reconTriple bd p s r).2 r
          cor gp oe oi ie ii oie tax ni) ∧
    (∀ (items : List Bucket) (p q : ℚ),
      (∃ it ∈ items, it.bucket = "Products" ∧ it.value > 0) →
      bdP items p = bdP items q) := by
  constructor
  · intro bd p s r cor gp oe oi ie ii oie tax ni
    rw [mkBucketSet_eq_psr, reconcile_psr]
    rfl
  · intro items
    induction items with
    | nil =>
        rintro p q ⟨it, hmem, -⟩
        exact absurd hmem (List.not_mem_nil it)
    | cons a tl ih =>
        rintro p q ⟨it, hmem, hcond⟩
        show bdVal "Products" (a :: tl) p = bdVal "Products" (a :: tl) q
        rw [bdVal_cons, bdVal_cons]
        by_cases h : a.bucket = "Products" ∧ a.value > 0
        · rw [if_pos h, if_pos h]
        · rw [if_neg h, if_neg h]
          rcases List.mem_cons.mp hmem with rfl | hmem2
          · exact absurd hcond h
          · exact ih p q ⟨it, hmem2, hcond⟩

theorem C6_witness :
    reconcile (some [⟨"Products", 700⟩])
        (mkBucketSet 600 0 1000 0 0 0 0 0 0 0 0 0) =
      mkBucketSet (reconTriple (some [⟨"Products", 700⟩]) 600 0 1000).1
        (reconTriple (some [⟨"Products", 700⟩]) 600 0 1000).2 1000
        0 0 0 0 0 0 0 0 0 ∧
    bdP [⟨"Products", 700⟩] 600 = bdP [⟨"Products", 700⟩] 0 :=
  ⟨C6_breakdown_overwrite.1 (some [⟨"Products", 700⟩]) 600 0 1000 0 0 0 0 0 0 0 0 0,
    C6_breakdown_overwrite.2 [⟨"Products", 700⟩] 600 0
      ⟨⟨"Products", 700⟩, by decide, by decide, by decide⟩⟩

lemma fallbackExtract_eq_mk (search : String → Option RegexMatch) :
    fallbackExtract search =
      mkBucketSet (scanPatterns search (patternsFor "Products"))
        (scanPatterns search (patternsFor "Services"))
        (scanPatterns search (patternsFor "Revenue"))
        (scanPatterns search (patternsFor "Cost of Revenue"))
        (scanPatterns search (patternsFor "Gross Profit"))
        (scanPatterns search (patternsFor "Operating Expenses"))
        (scanPatterns search (patternsFor "Operating Income"))
        (scanPatterns search (patternsFor "Interest Expense"))
        (scanPatterns search (patternsFor "Interest Income"))
        (scanPatterns search (patternsFor "Other Income/Expense"))
        (scanPatterns search (patternsFor "Taxes"))
        (scanPatterns search (patternsFor "Net Income")) := rfl

lemma reconcile_mk_names (bd : Option (List Bucket))
    (p s r cor gp oe oi ie ii oie tax ni : ℚ) :
    (reconcile bd (mkBucketSet p s r cor gp oe oi ie ii oie tax ni)).map
      Bucket.bucket = TAXONOMY := by
  rw [mkBucketSet_eq_psr, reconcile_psr]
  rfl

lemma scanPatterns_nil (search : String → Option RegexMatch) :
    scanPatterns search [] = 0 := rfl

lemma scanPatterns_cons (search : String → Option RegexMatch)
    (pat : String) (rest : List String) :
    scanPatterns search (pat :: rest) =
      (match search pat with
        | none => scanPatterns search rest
        | some m =>
          match pyFloat (stripCommas m.group1) with
          | none => scanPatterns search rest
          | some v => v * unit_multiplier (pyLower (m.group2.getD ""))) := rfl

lemma scanPatterns_cons_none (search : String → Option RegexMatch)
    (pat : String) (rest : List String) (h : search pat = none) :
    scanPatterns search (pat :: rest) = scanPatterns search rest := by
  rw [scanPatterns_cons, h]

lemma scanPatterns_cons_fail (search : String → Option RegexMatch)
    (pat : String) (rest : List String) (m : RegexMatch)
    (h : search pat = some m) (h2 : pyFloat (stripCommas m.group1) = none) :
    scanPatterns search (pat :: rest) = scanPatterns search rest := by
  rw [scanPatterns_cons, h]
  show (match pyFloat (stripCommas m.group1) with
    | none => scanPatterns search rest
    | some v => v * unit_multiplier (pyLower (m.group2.getD ""))) = _
  rw [h2]

lemma scanPatterns_cons_found (search : String → Option RegexMatch)
    (pat : String) (rest : List String) (m : RegexMatch) (v : ℚ)
    (h : search pat = some m) (h2 : pyFloat (stripCommas m.group1) = some v) :
    scanPatterns search (pat :: rest) =
      v * unit_multiplier (pyLower (m.group2.getD "")) := by
  rw [scanPatterns_cons, h]
  show (match pyFloat (stripCommas m.group1) with
    | none => scanPatterns search rest
    | some w => w * unit_multiplier (pyLower (m.group2.getD ""))) = _
  rw [h2]

lemma pyFloat_1000 : pyFloat (stripCommas "1,000") = some 1000 := by
  show pyFloat "1000" = some 1000
  norm_num [pyFloat, digitsVal]
  refine ⟨by decide, by decide, by decide, ?_⟩
  rw [show (List.foldl (fun a c => a * 10 + (c.toNat - Char.toNat '0')) 0
        (List.takeWhile (fun c => c != '.') ['1', '0', '0', '0'])) = 1000
      from by decide,
    show (List.foldl (fun a c => a * 10 + (c.toNat - Char.toNat '0')) 0
        ((List.dropWhile (fun c => c != '.') ['1', '0', '0', '0']).tail)) = 0
      from by decide,
    show ((List.dropWhile (fun c => c != '.')
        ['1', '0', '0', '0']).length - 1) = 0 from by decide]
  norm_num

lemma pyFloat_two_point_five : pyFloat (stripCommas "2.5") = some (5 / 2) := by
  show pyFloat "2.5" = some (5 / 2)
  norm_num [pyFloat, digitsVal]
  refine ⟨by decide, by decide, by decide, ?_⟩
  rw [show (List.foldl (fun a c => a * 10 + (c.toNat - Char.toNat '0')) 0
        (List.takeWhile (fun c => c != '.') ['2', '.', '5'])) = 2
      from by decide,
    show (List.foldl (fun a c => a * 10 + (c.toNat - Char.toNat '0')) 0
        ((List.dropWhile (fun c => c != '.') ['2', '.', '5']).tail)) = 5
      from by decide,
    show ((List.dropWhile (fun c => c != '.') ['2', '.', '5']).length - 1) = 1
      from by decide]
  norm_num

lemma pyFloat_zero_literal : pyFloat (stripCommas "0") = some 0 := by
  show pyFloat "0" = some 0
  norm_num [pyFloat, digitsVal]
  refine ⟨by decide, by decide, by decide, ?_⟩
  rw [show (List.foldl (fun a c => a * 10 + (c.toNat - Char.toNat '0')) 0
        (List.takeWhile (fun c => c != '.') ['0'])) = 0 from by decide,
    show (List.foldl (fun a c => a * 10 + (c.toNat - Char.toNat '0')) 0
        ((List.dropWhile (fun c => c != '.') ['0']).tail)) = 0 from by decide]
  norm_num

lemma pyFloat_commas_only : pyFloat (stripCommas ",,") = none := by decide

/-- C1 counterexample: a successfully decoded primary response consisting of
the single unknown key "Garbage" with value 5 is returned as-is after the
reconciliation pass (which, through the aliased Python index -1, rescales that
single entry twice down to 5/4): the returned list has one entry instead of
twelve, the unknown key is kept, and every taxonomy key is absent. -/
theorem C1_counterexample :
    extract_financial_buckets_from_summary (some (some [⟨"Garbage", 5⟩]))
        (fun _ => none) none = Except.ok [⟨"Garbage", (5 : ℚ) / 4⟩] ∧
    "Revenue" ∉ ([⟨"Garbage", (5 : ℚ) / 4⟩] : List Bucket).map Bucket.bucket := by
  constructor
  · show Except.ok (reconcile none
        (if primaryUnusable [⟨"Garbage", 5⟩] then fallbackExtract (fun _ => none)
          else [⟨"Garbage", 5⟩])) = _
    rw [if_neg (show ¬ (primaryUnusable [⟨"Garbage", 5⟩] = true) by decide)]
    show Except.ok (rescalePhase (-1) (-1) (-1)
        (breakdownPhase none (-1) (-1) (-1) [⟨"Garbage", 5⟩])) = _
    have hbp : breakdownPhase none (-1) (-1) (-1)
        [(⟨"Garbage", 5⟩ : Bucket)] = [⟨"Garbage", 5⟩] := by
      unfold breakdownPhase
      rw [if_neg]
      rintro ⟨hc, -⟩
      exact hc rfl
    rw [hbp]
    have hrs : rescalePhase (-1) (-1) (-1) [(⟨"Garbage", 5⟩ : Bucket)] =
        [⟨"Garbage", (5 : ℚ) / 4⟩] := by
      have hv : pyGet [(⟨"Garbage", 5⟩ : Bucket)] (-1) = ⟨"Garbage", 5⟩ := rfl
      simp only [rescalePhase, hv]
      rw [if_pos (⟨by norm_num, by norm_num⟩ :
          (Bucket.mk "Garbage" 5).value > 0 ∧ (Bucket.mk "Garbage" 5).value > 0)]
      rw [if_pos (⟨by norm_num, by norm_num⟩ :
          |(Bucket.mk "Garbage" 5).value + (Bucket.mk "Garbage" 5).value -
              (Bucket.mk "Garbage" 5).value| >
            1 / 100 * (Bucket.mk "Garbage" 5).value ∧
          (Bucket.mk "Garbage" 5).value > 0)]
      rw [if_pos (⟨by norm_num, by norm_num⟩ :
          (Bucket.mk "Garbage" 5).value > 0 ∧ (Bucket.mk "Garbage" 5).value > 0)]
      have hset : ∀ v w : ℚ, pySetValue [(⟨"Garbage", v⟩ : Bucket)] (-1) w =
          [⟨"Garbage", w⟩] := fun v w => rfl
      have hget2 : ∀ v : ℚ, pyGet [(⟨"Garbage", v⟩ : Bucket)] (-1) =
          ⟨"Garbage", v⟩ := fun v => rfl
      rw [hset, hget2, hset]
      norm_num
    rw [hrs]
  · decide

/-- C1 (amended): an extraction run that takes the fallback path returns a
fully populated BucketSet — exactly one entry per taxonomy key, in taxonomy
order — for every behaviour of the regex engine and of the breakdown call; on
the primary path the decoded list is instead carried through as-is, so
unknown keys are kept and missing taxonomy keys stay absent. -/
theorem C1_fallback_fully_populated
    (decoded : Option (List Bucket)) (search : String → Option RegexMatch)
    (bd : Option (List Bucket))
    (h : primaryUnusable (decoded.getD []) = true) :
    ∃ l : List Bucket,
      extract_financial_buckets_from_summary (some decoded) search bd =
        Except.ok l ∧ l.map Bucket.bucket = TAXONOMY := by
  refine ⟨reconcile bd (fallbackExtract search), ?_, ?_⟩
  · show Except.ok (reconcile bd
        (if primaryUnusable (decoded.getD []) then fallbackExtract search
          else decoded.getD [])) = _
    rw [if_pos h]
  · rw [fallbackExtract_eq_mk search]
    exact reconcile_mk_names bd _ _ _ _ _ _ _ _ _ _ _ _

theorem C1_witness :
    primaryUnusable ((some ([] : List Bucket)).getD []) = true ∧
    ∃ l : List Bucket,
      extract_financial_buckets_from_summary (some (some []))
          (fun _ => none) none = Except.ok l ∧
        l.map Bucket.bucket = TAXONOMY :=
  ⟨rfl, C1_fallback_fully_populated (some []) (fun _ => none) none rfl⟩

/-- C7 counterexample: with the generation service unavailable at the
top-level call, the extraction run does not complete — the raised error
propagates to the caller, even for a summary text whose fallback would
resolve Revenue to 1000 with Products and Services at 0. -/
theorem C7_counterexample :
    extract_financial_buckets_from_summary none revenueSearch none =
      Except.error "Ollama call failed" := rfl

/-- C7 (amended): a failed top-level generation call raises to the caller
(the run does not complete); the regex fallback only covers a call that
succeeds with an unusable response, in which case the run completes: for the
Revenue=1000 text the fallback yields Revenue=1000 with Products and Services
left at 0, the failed secondary breakdown is treated as no improvement, and no
rescale is applied. -/
theorem C7_error_propagation :
    (∀ (search : String → Option RegexMatch) (bd : Option (List Bucket)),
      extract_financial_buckets_from_summary none search bd =
        Except.error "Ollama call failed") ∧
    extract_financial_buckets_from_summary (some none) revenueSearch none =
      Except.ok (mkBucketSet 0 0 1000 0 0 0 0 0 0 0 0 0) := by
  constructor
  · intro search bd
    rfl
  · show Except.ok (reconcile none (if primaryUnusable ([] : List Bucket)
        then fallbackExtract revenueSearch else [])) = _
    rw [if_pos (show primaryUnusable ([] : List Bucket) = true from rfl),
      fallbackExtract_eq_mk]
    rw [show scanPatterns revenueSearch (patternsFor "Products") = 0 from by decide,
      show scanPatterns revenueSearch (patternsFor "Services") = 0 from by decide,
      show scanPatterns revenueSearch (patternsFor "Cost of Revenue") = 0 from by decide,
      show scanPatterns revenueSearch (patternsFor "Gross Profit") = 0 from by decide,
      show scanPatterns revenueSearch (patternsFor "Operating Expenses") = 0 from by decide,
      show scanPatterns revenueSearch (patternsFor "Operating Income") = 0 from by decide,
      show scanPatterns revenueSearch (patternsFor "Interest Expense") = 0 from by decide,
      show scanPatterns revenueSearch (patternsFor "Interest Income") = 0 from by decide,
      show scanPatterns revenueSearch (patternsFor "Other Income/Expense") = 0 from by decide,
      show scanPatterns revenueSearch (patternsFor "Taxes") = 0 from by decide,
      show scanPatterns revenueSearch (patternsFor "Net Income") = 0 from by decide]
    have hR : scanPatterns revenueSearch (patternsFor "Revenue") = 1000 := by
      have e2 : revenueSearch revPat = some ⟨"1,000", none⟩ := by
        unfold revenueSearch
        rw [if_pos rfl]
      rw [show patternsFor "Revenue" = revPat :: ["Net\\s+sales" ++ numTail]
          from rfl]
      rw [scanPatterns_cons_found revenueSearch revPat _ _ 1000 e2 pyFloat_1000]
      rw [show unit_multiplier (pyLower ((none : Option String).getD "")) = 1
          from by decide]
      norm_num
    rw [hR, mkBucketSet_eq_psr, reconcile_psr]
    norm_num [reconTriple, reconPS_none_eq, rescalePS, psr]

/-- C8: in the fallback extractor each ordered pattern list is scanned in
order; the first pattern that matches and whose captured literal parses
(commas removed; unit million/m times 1, billion/b times 1000, absent unit
times 1) sets the value of the key and stops the scan — even when the parsed
value is exactly 0 — a match whose captured literal fails to parse continues
with the next pattern, and a key for which no pattern produces a parsed value
gets 0; the fallback result has one entry per taxonomy key valued by this
scan.  The regex engine itself (with its case-insensitive flag) is external
and is modelled as an oracle from the pattern to the match result;
demonstrations: an all-comma capture is skipped in favour of a later
2.5-billion capture (2500), and a captured 0 stops the scan even when the
next pattern would capture 7. -/
theorem C8_fallback_first_match :
    (∀ search : String → Option RegexMatch, scanPatterns search [] = 0) ∧
    (∀ (search : String → Option RegexMatch) (pat : String) (rest : List String),
      search pat = none →
      scanPatterns search (pat :: rest) = scanPatterns search rest) ∧
    (∀ (search : String → Option RegexMatch) (pat : String) (rest : List String)
        (m : RegexMatch),
      search pat = some m → pyFloat (stripCommas m.group1) = none →
      scanPatterns search (pat :: rest) = scanPatterns search rest) ∧
    (∀ (search : String → Option RegexMatch) (pat : String) (rest : List String)
        (m : RegexMatch) (v : ℚ),
      search pat = some m → pyFloat (stripCommas m.group1) = some v →
      scanPatterns search (pat :: rest) =
        v * unit_multiplier (pyLower (m.group2.getD ""))) ∧
    (unit_multiplier "million" = 1 ∧ unit_multiplier "m" = 1 ∧
      unit_multiplier "billion" = 1000 ∧ unit_multiplier "b" = 1000 ∧
      unit_multiplier "" = 1) ∧
    (∀ search : String → Option RegexMatch,
      fallbackExtract search =
        mkBucketSet (scanPatterns search (patternsFor "Products"))
          (scanPatterns search (patternsFor "Services"))
          (scanPatterns search (patternsFor "Revenue"))
          (scanPatterns search (patternsFor "Cost of Revenue"))
          (scanPatterns search (patternsFor "Gross Profit"))
          (scanPatterns search (patternsFor "Operating Expenses"))
          (scanPatterns search (patternsFor "Operating Income"))
          (scanPatterns search (patternsFor "Interest Expense"))
          (scanPatterns search (patternsFor "Interest Income"))
          (scanPatterns search (patternsFor "Other Income/Expense"))
          (scanPatterns search (patternsFor "Taxes"))
          (scanPatterns search (patternsFor "Net Income"))) ∧
    scanPatterns searchJunkThenBillion [prodPat1, prodPat2] = 2500 ∧
    scanPatterns searchZeroThenSeven [prodPat1, prodPat2] = 0 := by
  refine ⟨scanPatterns_nil, scanPatterns_cons_none, scanPatterns_cons_fail,
    scanPatterns_cons_found,
    ⟨by decide, by decide, by decide, by decide, by decide⟩,
    fallbackExtract_eq_mk, ?_, ?_⟩
  · have e1 : searchJunkThenBillion prodPat1 = some ⟨",,", none⟩ := by
      unfold searchJunkThenBillion
      rw [if_pos rfl]
    have e3 : searchJunkThenBillion prodPat2 = some ⟨"2.5", some "billion"⟩ := by
      unfold searchJunkThenBillion
      rw [if_neg (by decide), if_pos rfl]
    rw [scanPatterns_cons_fail _ _ _ _ e1 pyFloat_commas_only,
      scanPatterns_cons_found _ _ _ _ (5 / 2) e3 pyFloat_two_point_five,
      show unit_multiplier (pyLower ((some "billion").getD "")) = 1000
        from by decide]
    norm_num
  · have e5 : searchZeroThenSeven prodPat1 = some ⟨"0", none⟩ := by
      unfold searchZeroThenSeven
      rw [if_pos rfl]
    rw [scanPatterns_cons_found _ _ _ _ 0 e5 pyFloat_zero_literal,
      show unit_multiplier (pyLower ((none : Option String).getD "")) = 1
        from by decide]
    norm_num

theorem C8_witness :
    revenueSearch prodPat1 = none ∧
    scanPatterns revenueSearch [prodPat1] = scanPatterns revenueSearch [] ∧
    searchJunkThenBillion prodPat1 = some ⟨",,", none⟩ ∧
    pyFloat (stripCommas ",,") = none ∧
    scanPatterns searchJunkThenBillion [prodPat1, prodPat2] =
      scanPatterns searchJunkThenBillion [prodPat2] ∧
    searchZeroThenSeven prodPat1 = some ⟨"0", none⟩ ∧
    pyFloat (stripCommas "0") = some 0 ∧
    scanPatterns searchZeroThenSeven [prodPat1, prodPat2] =
      0 * unit_multiplier (pyLower ((⟨"0", none⟩ : RegexMatch).group2.getD "")) :=
  ⟨rfl,
    C8_fallback_first_match.2.1 revenueSearch prodPat1 [] rfl,
    rfl,
    pyFloat_commas_only,
    C8_fallback_first_match.2.2.1 searchJunkThenBillion prodPat1 [prodPat2]
      ⟨",,", none⟩ rfl pyFloat_commas_only,
    rfl,
    pyFloat_zero_literal,
    C8_fallback_first_match.2.2.2.1 searchZeroThenSeven prodPat1 [prodPat2]
      ⟨"0", none⟩ 0 rfl pyFloat_zero_literal⟩

lemma keys_dictSet (d : List (String × ℚ)) (k1 : String) (v : ℚ) :
    ((dictSet d k1 v).map Prod.fst = d.map Prod.fst ∧
      k1 ∈ d.map Prod.fst) ∨
    (dictSet d k1 v).map Prod.fst = d.map Prod.fst ++ [k1] := by
  unfold dictSet
  split
  case isTrue h =>
    left
    constructor
    · rw [List.map_map]
      apply List.map_congr_left
      intro kv _
      by_cases hk : kv.1 = k1
      · simp [hk]
      · simp [hk]
    · rw [List.any_eq_true] at h
      obtain ⟨kv, hmem, hkv⟩ := h
      rw [beq_iff_eq] at hkv
      exact hkv ▸ List.mem_map_of_mem Prod.fst hmem
  case isFalse h =>
    right
    rw [List.map_append]
    rfl

lemma dictContains_iff_mem_keys (d : List (String × ℚ)) (k : String) :
    dictContains d k = true ↔ k ∈ d.map Prod.fst := by
  unfold dictContains
  rw [List.any_eq_true]
  constructor
  · rintro ⟨kv, hmem, hkv⟩
    rw [beq_iff_eq] at hkv
    exact hkv ▸ List.mem_map_of_mem Prod.fst hmem
  · intro h
    obtain ⟨kv, hmem, hkv⟩ := List.mem_map.mp h
    exact ⟨kv, hmem, beq_iff_eq.mpr hkv⟩

lemma mem_keys_foldl_dictSet (raw : List Bucket) :
    ∀ (d : List (String × ℚ)) (k : String),
      (k ∈ ((raw.foldl (fun d b => dictSet d b.bucket b.value) d).map
        Prod.fst) ↔
      k ∈ d.map Prod.fst ∨ k ∈ raw.map (fun b => b.bucket)) := by
  induction raw with
  | nil =>
      intro d k
      simp
  | cons b tl ih =>
      intro d k
      rw [List.foldl_cons, ih (dictSet d b.bucket b.value) k]
      rcases keys_dictSet d b.bucket b.value with ⟨heq, hmem⟩ | heq
      · rw [heq, List.map_cons, List.mem_cons]
        constructor
        · rintro (h | h)
          · exact Or.inl h
          · exact Or.inr (Or.inr h)
        · rintro (h | rfl | h)
          · exact Or.inl h
          · exact Or.inl hmem
          · exact Or.inr h
      · rw [heq, List.map_cons, List.mem_cons, List.mem_append,
          List.mem_singleton]
        constructor
        · rintro ((h | rfl) | h)
          · exact Or.inl h
          · exact Or.inr (Or.inl rfl)
          · exact Or.inr (Or.inr h)
        · rintro (h | rfl | h)
          · exact Or.inl (Or.inl h)
          · exact Or.inl (Or.inr rfl)
          · exact Or.inr h

lemma dictContains_bucket_values (raw : List Bucket) (k : String) :
    dictContains (bucket_values raw) k = true ↔
      k ∈ raw.map (fun b => b.bucket) := by
  unfold bucket_values
  rw [dictContains_iff_mem_keys, mem_keys_foldl_dictSet raw [] k]
  simp

lemma mem_flowCand {ns : List String} {s t : String} {p : String × String}
    (h : p ∈ flowCand ns s t) : p = (s, t) ∧ s ∈ ns ∧ t ∈ ns := by
  unfold flowCand at h
  split at h
  case isTrue hc => exact ⟨List.mem_singleton.mp h, hc.1, hc.2⟩
  case isFalse => exact absurd h (List.not_mem_nil p)

lemma mem_flowsA {ns : List String} {p : String × String}
    (h : p ∈ flowsA ns) :
    p ∈ ([("Products", "Revenue"), ("Services", "Revenue"),
      ("Revenue", "Cost of Revenue"), ("Revenue", "Gross Profit"),
      ("Gross Profit", "Operating Expenses"),
      ("Gross Profit", "Operating Income")] : List (String × String)) := by
  unfold flowsA at h
  simp only [List.mem_append] at h
  rcases h with ((((h | h) | h) | h) | h) | h <;>
    simp [(mem_flowCand h).1]

lemma mem_flowsB {ns : List String} {p : String × String}
    (h : p ∈ flowsB ns) :
    p ∈ ([("Operating Income", "EBIT"), ("Other Income/Expense", "EBIT")] :
        List (String × String)) ∨
    (p ∈ ([("Operating Income", "Interest Income"),
        ("Operating Income", "Interest Expense"),
        ("Operating Income", "Other Income/Expense")] :
          List (String × String)) ∧
      ¬ ("EBIT" ∈ ns) ∧ "Operating Income" ∈ ns) := by
  unfold flowsB at h
  split at h
  case isTrue hE =>
    left
    rcases List.mem_append.mp h with h | h
    · simp [(mem_flowCand h).1]
    · split at h
      · simp [(mem_flowCand h).1]
      · exact absurd h (List.not_mem_nil p)
  case isFalse hE =>
    right
    simp only [List.mem_append] at h
    rcases h with (h | h) | h <;>
      [skip; skip; skip] <;>
      · split at h
        · obtain ⟨hp, hsrc, -⟩ := mem_flowCand h
          exact ⟨by simp [hp], hE, hsrc⟩
        · exact absurd h (List.not_mem_nil p)

lemma mem_flowsC {ns : List String} {p : String × String}
    (h : p ∈ flowsC ns) :
    p ∈ ([("EBIT", "EBT"), ("Interest Income", "EBT"),
      ("Interest Expense", "EBT")] : List (String × String)) := by
  unfold flowsC at h
  split at h
  case isTrue =>
    simp only [List.mem_append] at h
    rcases h with (h | h) | h
    · simp [(mem_flowCand h).1]
    · split at h
      · simp [(mem_flowCand h).1]
      · exact absurd h (List.not_mem_nil p)
    · split at h
      · simp [(mem_flowCand h).1]
      · exact absurd h (List.not_mem_nil p)
  case isFalse => exact absurd h (List.not_mem_nil p)

lemma mem_flowsD {ns : List String} {p : String × String}
    (h : p ∈ flowsD ns) :
    p ∈ ([("EBT", "Net Income"), ("Taxes", "Net Income"),
      ("Operating Income", "Net Income")] : List (String × String)) := by
  unfold flowsD at h
  split at h <;>
    · rcases List.mem_append.mp h with h | h
      · simp [(mem_flowCand h).1]
      · split at h
        · simp [(mem_flowCand h).1]
        · exact absurd h (List.not_mem_nil p)

lemma mem_flowsE {ns : List String} {p : String × String}
    (h : p ∈ flowsE ns) :
    p ∈ ([("Interest Income", "Net Income"),
      ("Interest Expense", "Net Income")] : List (String × String)) := by
  unfold flowsE at h
  rcases List.mem_append.mp h with h | h <;>
    · split at h
      · simp [(mem_flowCand h).1]
      · exact absurd h (List.not_mem_nil p)

lemma rank_graphFlows {ns : List String} {p : String × String}
    (h : p ∈ graphFlows ns) : stageRank p.1 < stageRank p.2 := by
  unfold graphFlows at h
  simp only [List.mem_append] at h
  rcases h with (((h | h) | h) | h) | h
  · have h2 := mem_flowsA h
    simp only [List.mem_cons, List.not_mem_nil, or_false] at h2
    rcases h2 with rfl | rfl | rfl | rfl | rfl | rfl <;> decide
  · rcases mem_flowsB h with h2 | ⟨h2, -, -⟩
    · simp only [List.mem_cons, List.not_mem_nil, or_false] at h2
      rcases h2 with rfl | rfl <;> decide
    · simp only [List.mem_cons, List.not_mem_nil, or_false] at h2
      rcases h2 with rfl | rfl | rfl <;> decide
  · have h2 := mem_flowsC h
    simp only [List.mem_cons, List.not_mem_nil, or_false] at h2
    rcases h2 with rfl | rfl | rfl <;> decide
  · have h2 := mem_flowsD h
    simp only [List.mem_cons, List.not_mem_nil, or_false] at h2
    rcases h2 with rfl | rfl | rfl <;> decide
  · have h2 := mem_flowsE h
    simp only [List.mem_cons, List.not_mem_nil, or_false] at h2
    rcases h2 with rfl | rfl <;> decide

lemma transGen_rank {ns : List String} {a b : String}
    (h : Relation.TransGen (FlowRel (graphFlows ns)) a b) :
    stageRank a < stageRank b := by
  induction h with
  | single h1 => exact rank_graphFlows h1
  | tail h1 h2 ih => exact lt_trans ih (rank_graphFlows h2)

lemma graphNodes_mk (p s r cor gp oe oi ie ii oie tax ni : ℚ) :
    graphNodes (mkBucketSet p s r cor gp oe oi ie ii oie tax ni) =
      TAXONOMY ++ ["EBIT", "EBT"] := by
  simp [graphNodes, ebitCond, ebtCond, bucket_values, dictSet, dictContains,
    dictGet?, derived1, ebitVal, mkBucketSet, TAXONOMY]

lemma dictGet?_cons_self (k : String) (v : ℚ) (d : List (String × ℚ)) :
    dictGet? ((k, v) :: d) k = some v := by
  unfold dictGet?
  rw [List.find?_cons_of_pos _ (by simp)]
  rfl

lemma dictGet?_cons_of_ne (k1 k : String) (v : ℚ) (d : List (String × ℚ))
    (h : k1 ≠ k) : dictGet? ((k1, v) :: d) k = dictGet? d k := by
  unfold dictGet?
  rw [List.find?_cons_of_neg]
  simp [h]

lemma derived_items_mk (p s r cor gp oe oi ie ii oie tax ni : ℚ) :
    derived_items (mkBucketSet p s r cor gp oe oi ie ii oie tax ni) =
      [("EBIT", oi + oie), ("EBT", oi + oie + ii - ie)] := by
  simp [derived_items, derived1, ebitCond, ebtCond, ebitVal, ebtVal,
    bucket_values, dictSet, dictContains, dictGet?, mkBucketSet]

/-- C4 counterexample: for the fully populated BucketSet with every value 1,
Revenue and Net Income are nodes, Cost of Revenue is a node other than Net
Income, yet Cost of Revenue has out-degree 0 in the produced edge set — so it
is not true that every node other than Net Income has out-degree at least 1. -/
theorem C4_counterexample :
    "Net Income" ∈ graphNodes (mkBucketSet 1 1 1 1 1 1 1 1 1 1 1 1) ∧
    "Revenue" ∈ graphNodes (mkBucketSet 1 1 1 1 1 1 1 1 1 1 1 1) ∧
    "Cost of Revenue" ∈ graphNodes (mkBucketSet 1 1 1 1 1 1 1 1 1 1 1 1) ∧
    "Cost of Revenue" ≠ "Net Income" ∧
    outDeg (graphFlows (graphNodes (mkBucketSet 1 1 1 1 1 1 1 1 1 1 1 1)))
      "Cost of Revenue" = 0 := by
  rw [graphNodes_mk]
  refine ⟨by decide, by decide, by decide, by decide, by decide⟩

/-- C4 (amended): the edge set produced by the flow-graph builder is acyclic
for every input list (every emitted edge strictly increases a fixed stage
rank, so no directed cycle exists); and for every fully populated BucketSet
every node other than Net Income, Cost of Revenue and Operating Expenses has
out-degree at least 1 (Cost of Revenue and Operating Expenses are terminal
cost sinks with no outgoing edge, as the counterexample shows). -/
theorem C4_acyclic_outdegree :
    (∀ (raw : List Bucket) (p : String × String),
      p ∈ graphFlows (graphNodes raw) → stageRank p.1 < stageRank p.2) ∧
    (∀ (raw : List Bucket) (a : String),
      ¬ Relation.TransGen (FlowRel (graphFlows (graphNodes raw))) a a) ∧
    (∀ (p s r cor gp oe oi ie ii oie tax ni : ℚ),
      ∀ n ∈ graphNodes (mkBucketSet p s r cor gp oe oi ie ii oie tax ni),
        n ≠ "Net Income" → n ≠ "Cost of Revenue" →
        n ≠ "Operating Expenses" →
        1 ≤ outDeg (graphFlows (graphNodes
          (mkBucketSet p s r cor gp oe oi ie ii oie tax ni))) n) := by
  refine ⟨fun _ _ h => rank_graphFlows h,
    fun _ _ h => absurd (transGen_rank h) (lt_irrefl _), ?_⟩
  intro p s r cor gp oe oi ie ii oie tax ni n hn h1 h2 h3
  rw [graphNodes_mk] at hn ⊢
  fin_cases hn
  all_goals first
    | exact absurd rfl h1
    | exact absurd rfl h2
    | exact absurd rfl h3
    | decide

theorem C4_witness :
    (("Products", "Revenue") ∈ graphFlows (graphNodes
        (mkBucketSet 1 1 1 1 1 1 1 1 1 1 1 1)) →
      stageRank ("Products", "Revenue").1 <
        stageRank ("Products", "Revenue").2) ∧
    ¬ Relation.TransGen (FlowRel (graphFlows (graphNodes
        (mkBucketSet 1 1 1 1 1 1 1 1 1 1 1 1)))) "Revenue" "Revenue" ∧
    1 ≤ outDeg (graphFlows (graphNodes (mkBucketSet 1 1 1 1 1 1 1 1 1 1 1 1)))
      "Revenue" :=
  ⟨C4_acyclic_outdegree.1 _ ("Products", "Revenue"),
    C4_acyclic_outdegree.2.1 _ "Revenue",
    C4_acyclic_outdegree.2.2 1 1 1 1 1 1 1 1 1 1 1 1 "Revenue"
      (by rw [graphNodes_mk]; decide) (by decide) (by decide) (by decide)⟩

/-- C5: whenever Operating Income is present and EBIT was not already
supplied, the builder derives EBIT = Operating Income + Other Income/Expense
(treated as 0 when absent) and records it among the derived items; whenever
EBIT (reported or derived) is present and EBT was not already supplied it
derives EBT = EBIT + Interest Income − Interest Expense (missing interest
terms treated as 0); for the BucketSet with Operating Income=200, Other
Income/Expense=−20, Interest Income=5, Interest Expense=15, Taxes=40 it
derives EBIT=180 and EBT=170, and the edge set contains Operating
Income→EBIT, Other Income/Expense→EBIT, EBIT→EBT, Interest Income→EBT,
Interest Expense→EBT, EBT→Net Income and Taxes→Net Income. -/
theorem C5_derive_ebit_ebt :
    (∀ p s r cor gp oe oi ie ii oie tax ni : ℚ,
      dictGet? (derived_items
          (mkBucketSet p s r cor gp oe oi ie ii oie tax ni)) "EBIT" =
        some (oi + oie) ∧
      dictGet? (derived_items
          (mkBucketSet p s r cor gp oe oi ie ii oie tax ni)) "EBT" =
        some (oi + oie + ii - ie)) ∧
    (∀ oi tax ni : ℚ,
      dictGet? (derived_items [⟨"Operating Income", oi⟩, ⟨"Taxes", tax⟩,
          ⟨"Net Income", ni⟩]) "EBIT" = some oi ∧
      dictGet? (derived_items [⟨"Operating Income", oi⟩, ⟨"Taxes", tax⟩,
          ⟨"Net Income", ni⟩]) "EBT" = some oi) ∧
    (dictGet? (derived_items exC5) "EBIT" = some 180 ∧
      dictGet? (derived_items exC5) "EBT" = some 170 ∧
      ("Operating Income", "EBIT") ∈ graphFlows (graphNodes exC5) ∧
      ("Other Income/Expense", "EBIT") ∈ graphFlows (graphNodes exC5) ∧
      ("EBIT", "EBT") ∈ graphFlows (graphNodes exC5) ∧
      ("Interest Income", "EBT") ∈ graphFlows (graphNodes exC5) ∧
      ("Interest Expense", "EBT") ∈ graphFlows (graphNodes exC5) ∧
      ("EBT", "Net Income") ∈ graphFlows (graphNodes exC5) ∧
      ("Taxes", "Net Income") ∈ graphFlows (graphNodes exC5)) := by
  refine ⟨?_, ?_, ?_⟩
  · intro p s r cor gp oe oi ie ii oie tax ni
    rw [derived_items_mk]
    constructor
    · rw [dictGet?_cons_self]
    · rw [dictGet?_cons_of_ne _ _ _ _ (by decide), dictGet?_cons_self]
  · intro oi tax ni
    constructor <;>
      simp [derived_items, derived1, ebitCond, ebtCond, ebitVal, ebtVal,
        bucket_values, dictSet, dictContains, dictGet?]
  · have hnodes : graphNodes exC5 = TAXONOMY ++ ["EBIT", "EBT"] :=
      graphNodes_mk 0 0 0 0 0 0 200 15 5 (-20) 40 0
    have hder : derived_items exC5 =
        [("EBIT", (200 : ℚ) + (-20)), ("EBT", 200 + (-20) + 5 - 15)] :=
      derived_items_mk 0 0 0 0 0 0 200 15 5 (-20) 40 0
    rw [hnodes, hder]
    refine ⟨?_, ?_, by decide, by decide, by decide, by decide, by decide,
      by decide, by decide⟩
    · rw [dictGet?_cons_self]
      norm_num
    · rw [dictGet?_cons_of_ne _ _ _ _ (by decide), dictGet?_cons_self]
      norm_num

lemma ebit_node_of_oi {raw : List Bucket}
    (h : "Operating Income" ∈ graphNodes raw) : "EBIT" ∈ graphNodes raw := by
  unfold graphNodes at h ⊢
  simp only [List.mem_append] at h ⊢
  have hOInames : "Operating Income" ∈ raw.map (fun b => b.bucket) := by
    rcases h with (h | h) | h
    · exact h
    · exfalso
      revert h
      split <;> simp
    · exfalso
      revert h
      split <;> simp
  have hOIbv : dictContains (bucket_values raw) "Operating Income" = true :=
    (dictContains_bucket_values raw "Operating Income").mpr hOInames
  by_cases hE : dictContains (bucket_values raw) "EBIT" = true
  · exact Or.inl (Or.inl ((dictContains_bucket_values raw "EBIT").mp hE))
  · have hE' : dictContains (bucket_values raw) "EBIT" = false := by
      revert hE
      cases dictContains (bucket_values raw) "EBIT" <;> simp
    have hcond : ebitCond raw = true := by
      unfold ebitCond
      rw [hOIbv, hE']
      rfl
    refine Or.inl (Or.inr ?_)
    rw [hcond]
    simp

lemma fallback_edges_absent {ns : List String}
    (himp : "Operating Income" ∈ ns → "EBIT" ∈ ns) :
    ("Operating Income", "Interest Income") ∉ graphFlows ns ∧
    ("Operating Income", "Interest Expense") ∉ graphFlows ns ∧
    ("Operating Income", "Other Income/Expense") ∉ graphFlows ns := by
  refine ⟨?_, ?_, ?_⟩ <;>
    · intro h
      unfold graphFlows at h
      simp only [List.mem_append] at h
      rcases h with (((hA | hB) | hC) | hD) | hE
      · exact absurd (mem_flowsA hA) (by decide)
      · rcases mem_flowsB hB with hp | ⟨-, hE', hOI⟩
        · exact absurd hp (by decide)
        · exact hE' (himp hOI)
      · exact absurd (mem_flowsC hC) (by decide)
      · exact absurd (mem_flowsD hD) (by decide)
      · exact absurd (mem_flowsE hE) (by decide)

/-- C10: whenever Operating Income is among the graph nodes, EBIT is also
among the graph nodes (reported in the input or derived by the builder), so
the three no-EBIT fallback edges Operating Income→Interest Income, Operating
Income→Interest Expense and Operating Income→Other Income/Expense are never
emitted in any graph build. -/
theorem C10_ebit_always_present :
    ∀ raw : List Bucket,
      ("Operating Income" ∈ graphNodes raw → "EBIT" ∈ graphNodes raw) ∧
      ("Operating Income", "Interest Income") ∉
        graphFlows (graphNodes raw) ∧
      ("Operating Income", "Interest Expense") ∉
        graphFlows (graphNodes raw) ∧
      ("Operating Income", "Other Income/Expense") ∉
        graphFlows (graphNodes raw) :=
  fun _ =>
    ⟨fun h => ebit_node_of_oi h,
      fallback_edges_absent (fun h => ebit_node_of_oi h)⟩

theorem C10_witness :
    "EBIT" ∈ graphNodes (mkBucketSet 1 1 1 1 1 1 1 1 1 1 1 1) ∧
    ("Operating Income", "Interest Income") ∉
      graphFlows (graphNodes (mkBucketSet 1 1 1 1 1 1 1 1 1 1 1 1)) :=
  ⟨(C10_ebit_always_present (mkBucketSet 1 1 1 1 1 1 1 1 1 1 1 1)).1
      (by rw [graphNodes_mk]; decide),
    (C10_ebit_always_present (mkBucketSet 1 1 1 1 1 1 1 1 1 1 1 1)).2.1⟩

lemma assignYAux_getElem (total : Nat) (l : List String) :
    ∀ (i k : Nat),
      (assignYAux total i l)[k]? = (l[k]?).map (fun n =>
        (n, if 1 < total then
            1 / 10 + (((i + k : Nat) : ℚ) / ((total : ℚ) - 1)) * (8 / 10)
          else (1 / 2 : ℚ))) := by
  induction l with
  | nil =>
      intro i k
      simp [assignYAux]
  | cons a tl ih =>
      intro i k
      rw [show assignYAux total i (a :: tl) =
          (a, if 1 < total then
              1 / 10 + ((i : ℚ) / ((total : ℚ) - 1)) * (8 / 10)
            else (1 / 2 : ℚ)) :: assignYAux total (i + 1) tl from rfl]
      cases k with
      | zero => simp
      | succ k' =>
          rw [List.getElem?_cons_succ, List.getElem?_cons_succ,
            ih (i + 1) k', show i + 1 + k' = i + (k' + 1) from by omega]

lemma assignY_getElem (g : List String) (k : Nat) :
    (assignY g)[k]? = (g[k]?).map (fun n =>
      (n, if 1 < g.length then
          1 / 10 + ((k : ℚ) / ((g.length : ℚ) - 1)) * (8 / 10)
        else (1 / 2 : ℚ))) := by
  unfold assignY
  rw [assignYAux_getElem g.length g 0 k]
  norm_num

/-- C9: within each layout stage the nodes keep their original ordering (the
stage group is a sublist of the deduplicated node list); node k of the group
gets yPosition 0.1 + (k/(n−1))·0.8 when the group has n > 1 nodes; a single
node is centered at 0.5; when the group has more than one node every
yPosition lies in [0.1, 0.9] and two positions in the group are equal only at
the same index, so no two nodes of the stage share a yPosition. -/
theorem C9_layout_spacing :
    ∀ (raw : List Bucket) (x : ℚ),
      (stageGroup (graphNodes raw) x).Sublist
        (dedupFirst (graphNodes raw)) ∧
      (∀ k : Nat,
        (assignY (stageGroup (graphNodes raw) x))[k]? =
          ((stageGroup (graphNodes raw) x)[k]?).map (fun n =>
            (n, if 1 < (stageGroup (graphNodes raw) x).length then
                1 / 10 + ((k : ℚ) /
                  (((stageGroup (graphNodes raw) x).length : ℚ) - 1)) *
                  (8 / 10)
              else (1 / 2 : ℚ)))) ∧
      ((stageGroup (graphNodes raw) x).length = 1 →
        ∀ n v, (n, v) ∈ assignY (stageGroup (graphNodes raw) x) →
          v = 1 / 2) ∧
      (1 < (stageGroup (graphNodes raw) x).length →
        ∀ j k : Nat, j < (stageGroup (graphNodes raw) x).length →
          k < (stageGroup (graphNodes raw) x).length →
          ((assignY (stageGroup (graphNodes raw) x))[j]?).map Prod.snd =
            ((assignY (stageGroup (graphNodes raw) x))[k]?).map Prod.snd →
          j = k) ∧
      (1 < (stageGroup (graphNodes raw) x).length →
        ∀ n v, (n, v) ∈ assignY (stageGroup (graphNodes raw) x) →
          1 / 10 ≤ v ∧ v ≤ 9 / 10) := by
  intro raw x
  refine ⟨List.filter_sublist _, fun k => assignY_getElem _ k, ?_, ?_, ?_⟩
  · intro hlen n v hmem
    obtain ⟨k, hk⟩ := List.mem_iff_getElem?.mp hmem
    rw [assignY_getElem] at hk
    cases hg : (stageGroup (graphNodes raw) x)[k]? with
    | none =>
        rw [hg] at hk
        simp at hk
    | some name =>
        rw [hg] at hk
        simp only [Option.map_some'] at hk
        have h2 := congrArg Prod.snd (Option.some.inj hk)
        rw [hlen] at h2
        norm_num at h2
        exact h2.symm
  · intro hlen j k hj hk heq
    rw [assignY_getElem, assignY_getElem, List.getElem?_eq_getElem hj,
      List.getElem?_eq_getElem hk] at heq
    simp only [Option.map_some'] at heq
    rw [if_pos hlen, if_pos hlen] at heq
    have heq2 := Option.some.inj heq
    have hd : (((stageGroup (graphNodes raw) x).length : ℚ) - 1) ≠ 0 := by
      have h1 : (1 : ℚ) < ((stageGroup (graphNodes raw) x).length : ℚ) := by
        exact_mod_cast hlen
      linarith
    have h3 : ((j : ℚ) / (((stageGroup (graphNodes raw) x).length : ℚ) - 1)) *
        (8 / 10) =
        ((k : ℚ) / (((stageGroup (graphNodes raw) x).length : ℚ) - 1)) *
        (8 / 10) := by
      linarith
    have h4 := mul_right_cancel₀ (show (8 / 10 : ℚ) ≠ 0 by norm_num) h3
    field_simp at h4
    exact_mod_cast h4
  · intro hlen n v hmem
    obtain ⟨k, hk⟩ := List.mem_iff_getElem?.mp hmem
    rw [assignY_getElem] at hk
    cases hg : (stageGroup (graphNodes raw) x)[k]? with
    | none =>
        rw [hg] at hk
        simp at hk
    | some name =>
        rw [hg] at hk
        simp only [Option.map_some'] at hk
        have h2 := congrArg Prod.snd (Option.some.inj hk)
        rw [if_pos hlen] at h2
        obtain ⟨hklen, -⟩ := List.getElem?_eq_some.mp hg
        have hd1 : (1 : ℚ) < ((stageGroup (graphNodes raw) x).length : ℚ) := by
          exact_mod_cast hlen
        have hkd : (k : ℚ) ≤
            ((stageGroup (graphNodes raw) x).length : ℚ) - 1 := by
          have : (k : ℚ) + 1 ≤ ((stageGroup (graphNodes raw) x).length : ℚ) := by
            exact_mod_cast hklen
          linarith
        have hdpos : (0 : ℚ) <
            ((stageGroup (graphNodes raw) x).length : ℚ) - 1 := by linarith
        have hfrac0 : (0 : ℚ) ≤
            (k : ℚ) / (((stageGroup (graphNodes raw) x).length : ℚ) - 1) :=
          div_nonneg (by positivity) (le_of_lt hdpos)
        have hfrac1 :
            (k : ℚ) / (((stageGroup (graphNodes raw) x).length : ℚ) - 1) ≤ 1 :=
          (div_le_one hdpos).mpr hkd
        have hterm0 : (0 : ℚ) ≤
            ((k : ℚ) / (((stageGroup (graphNodes raw) x).length : ℚ) - 1)) *
              (8 / 10) :=
          mul_nonneg hfrac0 (by norm_num)
        have hterm1 :
            ((k : ℚ) / (((stageGroup (graphNodes raw) x).length : ℚ) - 1)) *
              (8 / 10) ≤ 8 / 10 := by
          have := mul_le_mul_of_nonneg_right hfrac1
            (show (0 : ℚ) ≤ 8 / 10 by norm_num)
          linarith [this]
        constructor <;> linarith [h2]

lemma stageGroup_taxonomy_zero :
    stageGroup (TAXONOMY ++ ["EBIT", "EBT"]) 0 = ["Products", "Services"] := by
  simp +decide [stageGroup, dedupFirst, node_x, levels, TAXONOMY, List.filter,
    List.find?, List.contains,
    show ((15 : ℚ) / 100 == 0) = false from by rw [beq_eq_false_iff_ne]; norm_num,
    show ((3 : ℚ) / 10 == 0) = false from by rw [beq_eq_false_iff_ne]; norm_num,
    show ((45 : ℚ) / 100 == 0) = false from by rw [beq_eq_false_iff_ne]; norm_num,
    show ((6 : ℚ) / 10 == 0) = false from by rw [beq_eq_false_iff_ne]; norm_num,
    show ((75 : ℚ) / 100 == 0) = false from by rw [beq_eq_false_iff_ne]; norm_num,
    show ((9 : ℚ) / 10 == 0) = false from by rw [beq_eq_false_iff_ne]; norm_num]

theorem C9_witness :
    ((assignY (stageGroup (graphNodes
        (mkBucketSet 1 1 1 1 1 1 1 1 1 1 1 1)) 0))[0]? =
      ((stageGroup (graphNodes
          (mkBucketSet 1 1 1 1 1 1 1 1 1 1 1 1)) 0)[0]?).map
        (fun n => (n,
          if 1 < (stageGroup (graphNodes
              (mkBucketSet 1 1 1 1 1 1 1 1 1 1 1 1)) 0).length then
            1 / 10 + (((0 : Nat) : ℚ) /
              (((stageGroup (graphNodes
                (mkBucketSet 1 1 1 1 1 1 1 1 1 1 1 1)) 0).length : ℚ) - 1)) *
              (8 / 10)
          else (1 / 2 : ℚ)))) ∧
    (1 : Nat) = 1 :=
  ⟨(C9_layout_spacing (mkBucketSet 1 1 1 1 1 1 1 1 1 1 1 1) 0).2.1 0,
    (C9_layout_spacing (mkBucketSet 1 1 1 1 1 1 1 1 1 1 1 1) 0).2.2.2.1
      (by rw [graphNodes_mk, stageGroup_taxonomy_zero]; decide) 1 1
      (by rw [graphNodes_mk, stageGroup_taxonomy_zero]; decide)
      (by rw [graphNodes_mk, stageGroup_taxonomy_zero]; decide) rfl⟩
